import Mathlib

/-!
Verification of `src/init-setup.py`, a one-shot initialization script that
waits for a MinIO cluster, registers a Trino catalog for an Iceberg REST
catalog, and prints operator instructions.

The script is shallowly embedded: the environment-derived configuration is a
record of strings, network effects (HTTP GETs, SQL connect/execute) are
abstracted as outcome-valued environments passed to the embedded functions,
and Python exceptions are modelled with `Except` (a raised exception that the
code catches is consumed by the corresponding branch of the embedding; one
that would propagate appears as an `Except.error` result).
-/

namespace InitSetup

/-- Configuration from environment (src/init-setup.py lines 23-30): a fixed
set of named settings, immutable for the run.  Field names follow the
script's module-level constants. -/
structure Config where
  MINIO_ENDPOINT : String
  ACCESS_KEY : String
  SECRET_KEY : String
  WAREHOUSE_BUCKET : String
  NAMESPACE : String
  TABLE_NAME : String
  TRINO_HOST : String
  TRINO_PORT : Nat
  deriving Repr, DecidableEq

/-- The default configuration used when no environment variables are set
(the `os.getenv` defaults on lines 23-30). -/
def defaultConfig : Config :=
  { MINIO_ENDPOINT := "http://nginx:9000"
    ACCESS_KEY := "minioadmin"
    SECRET_KEY := "minioadmin"
    WAREHOUSE_BUCKET := "api-logs"
    NAMESPACE := "minio"
    TABLE_NAME := "api_logs"
    TRINO_HOST := "trino"
    TRINO_PORT := 8080 }

/-- One character of the sanitization `WAREHOUSE_BUCKET.replace("-", "_")`
(line 60): a hyphen becomes an underscore, everything else is unchanged. -/
def sanitizeChar (c : Char) : Char := if c = '-' then '_' else c

/-- `catalog_name = WAREHOUSE_BUCKET.replace("-", "_")` (line 60).  Python's
`str.replace` with a one-character pattern and one-character replacement is
exactly the character-wise map. -/
def catalogName (bucket : String) : String := ⟨bucket.data.map sanitizeChar⟩

/-! ## Readiness prober (`wait_for_minio`, lines 38-51) -/

/-- A transport-level error raised by `requests.get` (connection refused,
timeout, DNS failure, or any other `Exception`). -/
inductive TransportError
  | connRefused
  | timeout
  | dnsFailure
  | other
  deriving Repr, DecidableEq

/-- The outcome of one `requests.get` call: either a response with an HTTP
status code, or a raised transport error. -/
inductive GetOutcome
  | resp (status : Nat)
  | raise (e : TransportError)
  deriving Repr, DecidableEq

/-- Observable behaviour of one run of the prober: its boolean return value,
how many GET requests it issued, and the total seconds spent in
`time.sleep`. -/
structure ProbeTrace where
  result : Bool
  attempts : Nat
  slept : Nat
  deriving Repr, DecidableEq

/-- The loop `for i in range(60)` of `wait_for_minio`, started at iteration
`i` with `n` iterations remaining.  `env j` is the outcome of the GET issued
on iteration `j`.  A 200 response returns `True` at once; any other response
falls through the `if`, and a raised error is consumed by
`except Exception: pass` (hence the `.raise` branch continues instead of
producing `Except.error`); both then `time.sleep(2)` and retry.  On
exhaustion the function logs a warning and returns `False`. -/
def wait_for_minio_from (env : Nat → GetOutcome) (i : Nat) : Nat → Except TransportError ProbeTrace
  | 0 => Except.ok { result := false, attempts := 0, slept := 0 }
  | n + 1 =>
    match env i with
    | GetOutcome.resp 200 => Except.ok { result := true, attempts := 1, slept := 0 }
    | GetOutcome.resp _ =>
      (wait_for_minio_from env (i + 1) n).map fun t =>
        { result := t.result, attempts := t.attempts + 1, slept := t.slept + 2 }
    | GetOutcome.raise _ =>
      (wait_for_minio_from env (i + 1) n).map fun t =>
        { result := t.result, attempts := t.attempts + 1, slept := t.slept + 2 }

/-- `wait_for_minio()` (lines 38-51): 60 attempts, 2-second fixed sleep. -/
def wait_for_minio (env : Nat → GetOutcome) : Except TransportError ProbeTrace :=
  wait_for_minio_from env 0 60

/-- Helper: one loop iteration whose GET sees a 200 returns `True` at once. -/
theorem wait_for_minio_from_step_ok (env : Nat → GetOutcome) (i n : Nat)
    (h : env i = GetOutcome.resp 200) :
    wait_for_minio_from env i (n + 1) =
      Except.ok { result := true, attempts := 1, slept := 0 } := by
  rw [wait_for_minio_from.eq_def]
  split
  · omega
  · rename_i m heq
    have hm : m = n := by omega
    subst hm
    rw [h]

/-- Helper: one loop iteration whose GET does not see a 200 (other status, or
a raised and swallowed error) recurses after sleeping 2 seconds. -/
theorem wait_for_minio_from_step_fail (env : Nat → GetOutcome) (i n : Nat)
    (h : env i ≠ GetOutcome.resp 200) :
    wait_for_minio_from env i (n + 1) =
      (wait_for_minio_from env (i + 1) n).map fun t =>
        { result := t.result, attempts := t.attempts + 1, slept := t.slept + 2 } := by
  rw [wait_for_minio_from.eq_def]
  split
  · omega
  · rename_i m heq
    have hm : m = n := by omega
    subst hm
    split
    · rename_i h200
      exact absurd h200 h
    · rfl
    · rfl

/-- Helper: the prober never produces an error, and its result is `true`
exactly when some attempt within the remaining budget observes a 200. -/
theorem wait_for_minio_from_spec (env : Nat → GetOutcome) (i n : Nat) :
    ∃ t : ProbeTrace, wait_for_minio_from env i n = Except.ok t ∧
      (t.result = true ↔ ∃ j, j < n ∧ env (i + j) = GetOutcome.resp 200) := by
  induction n generalizing i with
  | zero =>
    refine ⟨{ result := false, attempts := 0, slept := 0 }, rfl, ?_⟩
    simp
  | succ n ih =>
    rcases ih (i + 1) with ⟨t, ht, hiff⟩
    by_cases h200 : env i = GetOutcome.resp 200
    · refine ⟨{ result := true, attempts := 1, slept := 0 }, ?_, ?_⟩
      · exact wait_for_minio_from_step_ok env i n h200
      · simp only [true_iff]
        exact ⟨0, Nat.succ_pos n, by simpa using h200⟩
    · refine ⟨{ result := t.result, attempts := t.attempts + 1, slept := t.slept + 2 }, ?_, ?_⟩
      · rw [wait_for_minio_from_step_fail env i n h200, ht]
        rfl
      · constructor
        · intro hres
          rcases hiff.mp (by simpa using hres) with ⟨j, hj, hje⟩
          exact ⟨j + 1, by omega, by simpa [Nat.add_assoc, Nat.add_comm 1 j] using hje⟩
        · rintro ⟨j, hj, hje⟩
          cases j with
          | zero => exact absurd (by simpa using hje) h200
          | succ j =>
            simp only []
            exact hiff.mpr ⟨j, by omega, by simpa [Nat.add_assoc, Nat.add_comm 1 j] using hje⟩

/-- Helper: on a run where no attempt in the budget yields 200, the prober
makes exactly `n` attempts, sleeps 2 seconds after each failed attempt, and
returns `false`. -/
theorem wait_for_minio_from_exhaust (env : Nat → GetOutcome) (i n : Nat)
    (h : ∀ j, j < n → env (i + j) ≠ GetOutcome.resp 200) :
    wait_for_minio_from env i n =
      Except.ok { result := false, attempts := n, slept := 2 * n } := by
  induction n generalizing i with
  | zero => rfl
  | succ n ih =>
    have hrest := ih (i + 1) fun j hj => by
      simpa [Nat.add_assoc, Nat.add_comm 1 j] using h (j + 1) (by omega)
    have h0 : env i ≠ GetOutcome.resp 200 := by simpa using h 0 (Nat.succ_pos n)
    rw [wait_for_minio_from_step_fail env i n h0, hrest]
    have h2 : 2 * (n + 1) = 2 * n + 2 := by ring
    simp [Except.map, h2]

/-! ## Catalog registrar (`setup_trino_catalog`, lines 54-110) -/

/-- The messages the registrar logs, in order of appearance in the source:
`log("Setting up Trino catalog...")` (line 58), `log(f"Creating Trino
catalog: ...")` (line 90), `log(f"... created successfully")` (line 92),
`log(f"Available schemas in ...")` (line 97), and the three messages of the
`except` block (lines 105, 107, 108). -/
inductive LogEvent
  | settingUp
  | creating (name : String)
  | created (name : String)
  | schemasListed (name : String) (schemas : List String)
  | alreadyExists (name : String)
  | warnCouldNotCreate (msg : String)
  | createManually
  deriving Repr, DecidableEq

/-- The SQL-side environment of one registrar run: the outcome of
`trino.dbapi.connect` + `conn.cursor()` (lines 63-68), of
`cursor.execute(create_catalog_sql)` (line 91), and of
`cursor.execute("SHOW SCHEMAS FROM ...")` + `cursor.fetchall()` (lines
95-96, yielding the schema rows).  An `Except.error` carries `str(e)`, the
raised exception's message. -/
structure TrinoEnv where
  connect : Except String Unit
  execCreate : Except String Unit
  execShow : Except String (List String)
  deriving Repr

/-- The observable state when the registrar returns: whether the SQL
connection and the cursor are still open, and the log lines emitted. -/
structure RegState where
  connOpen : Bool
  cursorOpen : Bool
  logs : List LogEvent
  deriving Repr, DecidableEq

/-- `s.lower()`: Python's lowercasing, character-wise (ASCII-faithful). -/
def lowerStr (s : String) : String := ⟨s.data.map Char.toLower⟩

/-- The classification test of line 104:
`"already exists" in error_msg.lower()`. -/
def msgHasAlreadyExists (e : String) : Bool :=
  decide ("already exists".data <:+: (lowerStr e).data)

/-- The `except Exception as e` block of lines 102-108: an error whose
lowercased message contains "already exists" logs idempotent success; any
other error logs the two warning lines.  Nothing is re-raised. -/
def handleCatalogExc (catalog_name e : String) : List LogEvent :=
  if msgHasAlreadyExists e then [LogEvent.alreadyExists catalog_name]
  else [LogEvent.warnCouldNotCreate e, LogEvent.createManually]

/-- `setup_trino_catalog()` (lines 54-110).  The `try` body runs connect,
`execute(create_catalog_sql)`, then `execute("SHOW SCHEMAS ...")` +
`fetchall()`; `cursor.close()` and `conn.close()` (lines 99-100) are the
last two statements INSIDE the `try`, so they execute only when no step
raised.  A raise at any step jumps to the `except` block with the
connection/cursor left in whatever open state they had at the raise; the
function then falls through to `return catalog_name` (line 110) in every
case. -/
def setup_trino_catalog (cfg : Config) (env : TrinoEnv) : String × RegState :=
  let l0 : List LogEvent := [LogEvent.settingUp]
  let catalog_name := catalogName cfg.WAREHOUSE_BUCKET
  match env.connect with
  | Except.error e =>
    (catalog_name,
     { connOpen := false, cursorOpen := false,
       logs := l0 ++ handleCatalogExc catalog_name e })
  | Except.ok _ =>
    match env.execCreate with
    | Except.error e =>
      (catalog_name,
       { connOpen := true, cursorOpen := true,
         logs := l0 ++ [LogEvent.creating catalog_name] ++ handleCatalogExc catalog_name e })
    | Except.ok _ =>
      match env.execShow with
      | Except.error e =>
        (catalog_name,
         { connOpen := true, cursorOpen := true,
           logs := l0 ++ [LogEvent.creating catalog_name, LogEvent.created catalog_name]
                      ++ handleCatalogExc catalog_name e })
      | Except.ok schemas =>
        (catalog_name,
         { connOpen := false, cursorOpen := false,
           logs := l0 ++ [LogEvent.creating catalog_name, LogEvent.created catalog_name,
                          LogEvent.schemasListed catalog_name schemas] })

/-- The message of the first exception the `try` body raises during
connect/execute, if any (`none` when every step succeeds). -/
def raisedMsg (env : TrinoEnv) : Option String :=
  match env.connect with
  | Except.error e => some e
  | Except.ok _ =>
    match env.execCreate with
    | Except.error e => some e
    | Except.ok _ =>
      match env.execShow with
      | Except.error e => some e
      | Except.ok _ => none

/-- `create_catalog_sql` (lines 71-88): the f-string DDL the registrar
executes, with the configuration interpolated.  Escapes: `\n` for the
literal newlines and `\"` for the double quotes of the property names. -/
def create_catalog_sql (cfg : Config) : String :=
  let catalog_name := catalogName cfg.WAREHOUSE_BUCKET
  "\n            CREATE CATALOG " ++ catalog_name ++ " USING iceberg\n            WITH (\n                \"iceberg.catalog.type\" = 'rest',\n                \"iceberg.rest-catalog.uri\" = '" ++ cfg.MINIO_ENDPOINT ++ "/_iceberg',\n                \"iceberg.rest-catalog.warehouse\" = '" ++ cfg.WAREHOUSE_BUCKET ++ "',\n                \"iceberg.rest-catalog.vended-credentials-enabled\" = 'true',\n                \"iceberg.rest-catalog.security\" = 'SIGV4',\n                \"iceberg.rest-catalog.signing-name\" = 's3tables',\n                \"s3.region\" = 'us-east-1',\n                \"s3.aws-access-key\" = '" ++ cfg.ACCESS_KEY ++ "',\n                \"s3.aws-secret-key\" = '" ++ cfg.SECRET_KEY ++ "',\n                \"s3.endpoint\" = '" ++ cfg.MINIO_ENDPOINT ++ "',\n                \"s3.path-style-access\" = 'true',\n                \"fs.hadoop.enabled\" = 'false',\n                \"fs.native-s3.enabled\" = 'true'\n            )\n        "

/-! ## Instruction printer (`print_instructions`, lines 113-198) -/

/-- `"=" * 70` (lines 115-117 and 198). -/
def eqSeventy : String := ⟨List.replicate 70 '='⟩

/-- The manual-fallback `CREATE CATALOG` DDL embedded in the instruction
template (lines 178-192): same statement as `create_catalog_sql` but laid
out with two-space indentation and a terminating semicolon. -/
def manualCatalogDdl (catalog_name : String) (cfg : Config) : String :=
  "  CREATE CATALOG " ++ catalog_name ++ " USING iceberg WITH (\n    \"iceberg.catalog.type\" = 'rest',\n    \"iceberg.rest-catalog.uri\" = '" ++ cfg.MINIO_ENDPOINT ++ "/_iceberg',\n    \"iceberg.rest-catalog.warehouse\" = '" ++ cfg.WAREHOUSE_BUCKET ++ "',\n    \"iceberg.rest-catalog.vended-credentials-enabled\" = 'true',\n    \"iceberg.rest-catalog.security\" = 'SIGV4',\n    \"iceberg.rest-catalog.signing-name\" = 's3tables',\n    \"s3.region\" = 'us-east-1',\n    \"s3.aws-access-key\" = '" ++ cfg.ACCESS_KEY ++ "',\n    \"s3.aws-secret-key\" = '" ++ cfg.SECRET_KEY ++ "',\n    \"s3.endpoint\" = '" ++ cfg.MINIO_ENDPOINT ++ "',\n    \"s3.path-style-access\" = 'true',\n    \"fs.hadoop.enabled\" = 'false',\n    \"fs.native-s3.enabled\" = 'true'\n  );"

/-- The output of `print_instructions` up to (and excluding) the first
interpolation `{WAREHOUSE_BUCKET}`: the three header `print` calls (lines
115-117, each appending a newline) and the template's opening lines
(119-120). -/
def instrHeader : String :=
  "\n" ++ eqSeventy ++ "\n" ++ "SETUP COMPLETE\n" ++ eqSeventy ++ "\n" ++ "\nThe MinIO cluster is configured to write API logs to an Iceberg table.\nLogs will be written to: "

/-- The remainder of the template after
`{WAREHOUSE_BUCKET}/{NAMESPACE}/{TABLE_NAME}` (lines 122-196), the
template's trailing newline added by `print`, and the closing `print("=" *
70)` (line 198). -/
def instrAfterTarget (catalog_name : String) (cfg : Config) : String :=
  "\n\nCONFIGURATION:\n  - Write interval: logs are batched and written to Parquet files periodically\n  - Commit interval: Parquet files are committed to Iceberg periodically\n  - Both intervals are configurable via environment variables\n\nSTEP 1: Generate API Traffic\n============================\nUse the mc client to generate API traffic that will be logged:\n\n  # Install mc if not already installed\n  # https://min.io/docs/minio/linux/reference/minio-mc.html\n\n  # Set up alias\n  mc alias set minio http://localhost:9000 " ++ cfg.ACCESS_KEY ++ " " ++ cfg.SECRET_KEY ++ "\n\n  # Create a test bucket and upload files\n  mc mb minio/test-bucket\n  for i in $(seq 1 100); do\n    echo \"test data $i\" | mc pipe minio/test-bucket/file-$i.txt\n  done\n\n  # List objects, get objects, etc.\n  mc ls minio/test-bucket\n  mc cat minio/test-bucket/file-1.txt\n  mc stat minio/test-bucket/file-1.txt\n\nSTEP 2: Wait for Logs to be Committed\n=====================================\nThe API logs are:\n  1. Written to local storage on each MinIO node\n  2. Periodically batched into Parquet files (write_interval)\n  3. Committed to the Iceberg table by the leader (commit_interval)\n\nDefault intervals are 30s write / 1m commit for this test setup.\nWait at least 2 minutes after generating traffic for logs to appear.\n\nSTEP 3: Query Logs with Trino\n=============================\nConnect to Trino and query the API logs:\n\n  # Using Trino CLI\n  docker exec -it trino trino\n\n  # In Trino, query the table\n  USE " ++ catalog_name ++ "." ++ cfg.NAMESPACE ++ ";\n  SELECT COUNT(*) FROM " ++ cfg.TABLE_NAME ++ ";\n  SELECT time, name, bucket, object, httpStatusCode FROM " ++ cfg.TABLE_NAME ++ " LIMIT 10;\n  SELECT name, COUNT(*) as cnt FROM " ++ cfg.TABLE_NAME ++ " GROUP BY name ORDER BY cnt DESC;\n\n  # Time-based queries\n  SELECT * FROM " ++ cfg.TABLE_NAME ++ " WHERE time > TIMESTAMP '2024-01-01 00:00:00';\n\nALTERNATIVE: Create Trino Catalog Manually\n==========================================\nIf the catalog wasn't created automatically, create it in Trino:\n\n" ++ manualCatalogDdl catalog_name cfg ++ "\n\nWEB INTERFACES:\n  - MinIO Console: http://localhost:9001 (" ++ cfg.ACCESS_KEY ++ "/" ++ cfg.SECRET_KEY ++ ")\n  - Trino UI: http://localhost:9999\n" ++ "\n" ++ eqSeventy ++ "\n"

/-- Everything `print_instructions(catalog_name)` (lines 113-198) writes to
standard output, as one string (each `print` call appends a newline to its
argument). -/
def print_instructions_output (catalog_name : String) (cfg : Config) : String :=
  instrHeader ++ cfg.WAREHOUSE_BUCKET ++ "/" ++ cfg.NAMESPACE ++ "/" ++ cfg.TABLE_NAME
    ++ instrAfterTarget catalog_name cfg

/-! ## Entry point (`main`, lines 201-223) -/

/-- The three externally visible steps of `main`, in the order they produce
output: the prober's return value, the registrar's returned catalog name,
and the printed instruction text. -/
inductive MainEvent
  | probed (ready : Bool)
  | registered (catalog_name : String)
  | printedInstructions (text : String)
  deriving Repr, DecidableEq

/-- `main()` (lines 201-219) followed by `sys.exit(main())` (line 223):
runs the prober, the registrar, then the printer, and returns 0.  A Python
exception escaping any step would abort this sequence, which the embedding
renders as an `Except.error`; the pair carries the ordered step events and
the process exit status. -/
def main (penv : Nat → GetOutcome) (tenv : TrinoEnv) (cfg : Config) :
    Except TransportError (List MainEvent × Nat) := do
  let t ← wait_for_minio penv
  let r := setup_trino_catalog cfg tenv
  let catalog_name := r.1
  let text := print_instructions_output catalog_name cfg
  pure ([MainEvent.probed t.result, MainEvent.registered catalog_name,
         MainEvent.printedInstructions text], 0)

/-! ## Helper lemmas -/

/-- Helper: sanitizing a character twice is the same as sanitizing it once
(an underscore is not a hyphen, and unchanged characters stay unchanged). -/
theorem sanitizeChar_idem (c : Char) : sanitizeChar (sanitizeChar c) = sanitizeChar c := by
  by_cases h : c = '-' <;> simp +decide [sanitizeChar, h]

/-- Helper: the prober never produces an error (its `except` clause swallows
every raise), stated through `wait_for_minio`. -/
theorem wait_for_minio_total (env : Nat → GetOutcome) :
    ∃ t : ProbeTrace, wait_for_minio env = Except.ok t := by
  rcases wait_for_minio_from_spec env 0 60 with ⟨t, ht, _⟩
  exact ⟨t, ht⟩

/-- `needle` occurs verbatim inside `hay`. -/
def strContains (hay needle : String) : Prop := ∃ p q, hay = p ++ needle ++ q

/-- Helper: a DDL statement with its layout whitespace and statement
terminator erased, for comparing the two `CREATE CATALOG` texts. -/
def ddlNorm (s : String) : List Char :=
  s.data.filter fun c => !(c == ' ' || c == '\n' || c == ';')

/-! ## Claim theorems -/

/-- C3: for every warehouse bucket name, the derived catalog name has the
same length, agrees with the bucket name position by position except that
every hyphen has become an underscore, contains no hyphen at all, and in
particular maps "api-logs" to "api_logs". -/
theorem catalogName_replaces_every_hyphen (bucket : String) :
    '-' ∉ (catalogName bucket).data ∧
    (catalogName bucket).data.length = bucket.data.length ∧
    (∀ i : Nat, (catalogName bucket).data.getD i ' ' =
      (if bucket.data.getD i ' ' = '-' then '_' else bucket.data.getD i ' ')) ∧
    catalogName "api-logs" = "api_logs" := by
  refine ⟨?_, ?_, ?_, by decide⟩
  · intro hmem
    rcases List.mem_map.mp hmem with ⟨c, _, hc⟩
    by_cases h : c = '-' <;> simp +decide [sanitizeChar, h] at hc
  · simp [catalogName]
  · intro i
    simp only [catalogName, List.getD_eq_getElem?_getD, List.getElem?_map]
    cases h : bucket.data[i]? with
    | none => simp +decide
    | some c => simp [sanitizeChar]

/-- C10: the catalog-name sanitization is idempotent: sanitizing an
already-sanitized bucket name changes nothing. -/
theorem catalogName_idempotent (s : String) :
    catalogName (catalogName s) = catalogName s := by
  unfold catalogName
  simp only [List.map_map]
  exact congrArg String.mk (List.map_congr_left fun c _ => sanitizeChar_idem c)

/-- C2: the readiness prober returns `true` exactly when one of its 60 GET
attempts observes an HTTP 200, and for every environment — including any
sequence of raised transport errors — it returns normally (no exception
escapes, rendered here as the result always being `Except.ok`). -/
theorem wait_for_minio_true_iff_200 (env : Nat → GetOutcome) :
    ∃ t : ProbeTrace, wait_for_minio env = Except.ok t ∧
      (t.result = true ↔ ∃ i, i < 60 ∧ env i = GetOutcome.resp 200) := by
  simpa using wait_for_minio_from_spec env 0 60

/-- C7: when no attempt sees a 200, the prober issues exactly 60 GET
requests, sleeps 2 seconds after each failed attempt (60 × 2 = 120 seconds
of sleep in total), returns `false`, and raises nothing. -/
theorem wait_for_minio_exhausts_budget (env : Nat → GetOutcome)
    (h : ∀ i, i < 60 → env i ≠ GetOutcome.resp 200) :
    wait_for_minio env =
      Except.ok { result := false, attempts := 60, slept := 60 * 2 } := by
  have h60 := wait_for_minio_from_exhaust env 0 60 (by simpa using h)
  simpa [wait_for_minio] using h60

/-- Witness for C7: against an endpoint that always answers 503, the prober
exhausts its budget of 60 attempts, sleeps 120 seconds, returns `false`. -/
theorem wait_for_minio_exhausts_budget_witness :
    wait_for_minio (fun _ => GetOutcome.resp 503) =
      Except.ok { result := false, attempts := 60, slept := 60 * 2 } :=
  wait_for_minio_exhausts_budget (fun _ => GetOutcome.resp 503)
    (fun i _ => by simp)

/-- C5: the registrar returns the sanitized bucket name as the catalog name
in every outcome of the DDL execution — success, an "already exists"
failure, or any other failure (the `return catalog_name` on line 110 runs
after the `try`/`except` in all cases). -/
theorem setup_trino_catalog_returns_catalog_name (cfg : Config) (env : TrinoEnv) :
    (setup_trino_catalog cfg env).1 = catalogName cfg.WAREHOUSE_BUCKET := by
  cases hc : env.connect <;> cases he : env.execCreate <;> cases hs : env.execShow <;>
    simp [setup_trino_catalog, hc, he, hs]

/-- C6: every exception raised during connect/execute is caught and
classified by its message: the idempotent-success line is logged exactly
when the lowercased message contains "already exists", and the non-fatal
warning is logged exactly otherwise (so an "already exists" failure is never
logged as a failure). -/
theorem setup_trino_catalog_classifies_errors (cfg : Config) (env : TrinoEnv)
    (e : String) (hraise : raisedMsg env = some e) :
    (LogEvent.alreadyExists (catalogName cfg.WAREHOUSE_BUCKET) ∈
        (setup_trino_catalog cfg env).2.logs ↔ msgHasAlreadyExists e = true) ∧
    (LogEvent.warnCouldNotCreate e ∈
        (setup_trino_catalog cfg env).2.logs ↔ msgHasAlreadyExists e = false) := by
  cases hc : env.connect with
  | error e1 =>
    rw [raisedMsg, hc] at hraise
    cases hraise
    cases hae : msgHasAlreadyExists e <;>
      simp [setup_trino_catalog, hc, handleCatalogExc, hae]
  | ok u =>
    cases he : env.execCreate with
    | error e1 =>
      rw [raisedMsg, hc, he] at hraise
      cases hraise
      cases hae : msgHasAlreadyExists e <;>
        simp [setup_trino_catalog, hc, he, handleCatalogExc, hae]
    | ok v =>
      cases hs : env.execShow with
      | error e1 =>
        rw [raisedMsg, hc, he, hs] at hraise
        cases hraise
        cases hae : msgHasAlreadyExists e <;>
          simp [setup_trino_catalog, hc, he, hs, handleCatalogExc, hae]
      | ok rows =>
        rw [raisedMsg, hc, he, hs] at hraise
        cases hraise

/-- Witness for C6: a SQL execution failing with "Catalog already exists"
makes the registrar log the idempotent-success line and not the warning. -/
theorem setup_trino_catalog_classifies_errors_witness :
    raisedMsg { connect := Except.ok (), execCreate := Except.error "Catalog already exists",
                execShow := Except.ok [] } = some "Catalog already exists" ∧
    LogEvent.alreadyExists (catalogName defaultConfig.WAREHOUSE_BUCKET) ∈
      (setup_trino_catalog defaultConfig
        { connect := Except.ok (), execCreate := Except.error "Catalog already exists",
          execShow := Except.ok [] }).2.logs ∧
    LogEvent.warnCouldNotCreate "Catalog already exists" ∉
      (setup_trino_catalog defaultConfig
        { connect := Except.ok (), execCreate := Except.error "Catalog already exists",
          execShow := Except.ok [] }).2.logs := by
  have h := setup_trino_catalog_classifies_errors defaultConfig
    { connect := Except.ok (), execCreate := Except.error "Catalog already exists",
      execShow := Except.ok [] } "Catalog already exists" rfl
  refine ⟨rfl, h.1.mpr (by decide), ?_⟩
  intro hmem
  have hfalse := h.2.mp hmem
  rw [show msgHasAlreadyExists "Catalog already exists" = true from by decide] at hfalse
  cases hfalse

/-- C1 counterexample: the claim "the cursor and connection are released
before the function returns, on both the success path and the exception
path" is false: when `cursor.execute(create_catalog_sql)` raises, control
jumps to the `except` block past the `cursor.close()`/`conn.close()` at the
end of the `try` body, and the registrar returns with both still open. -/
theorem setup_trino_catalog_leaks_on_error :
    (setup_trino_catalog defaultConfig
      { connect := Except.ok (), execCreate := Except.error "boom",
        execShow := Except.ok [] }).2.connOpen = true ∧
    (setup_trino_catalog defaultConfig
      { connect := Except.ok (), execCreate := Except.error "boom",
        execShow := Except.ok [] }).2.cursorOpen = true := by
  exact ⟨rfl, rfl⟩

/-- C1 amended: `cursor.close()` and `conn.close()` are the last statements
inside the `try` body, so the cursor and connection are released exactly on
the success path; on an exception path the `except` handler performs no
release — a raise in either `execute` call leaves both open at return,
while a raise in `connect` means neither was ever opened. -/
theorem setup_trino_catalog_close_paths (cfg : Config) (env : TrinoEnv) :
    (env.connect = Except.ok () → env.execCreate = Except.ok () →
      (∀ rows, env.execShow = Except.ok rows →
        (setup_trino_catalog cfg env).2.connOpen = false ∧
        (setup_trino_catalog cfg env).2.cursorOpen = false)) ∧
    (∀ e, env.connect = Except.ok () → env.execCreate = Except.error e →
      (setup_trino_catalog cfg env).2.connOpen = true ∧
      (setup_trino_catalog cfg env).2.cursorOpen = true) ∧
    (∀ e, env.connect = Except.ok () → env.execCreate = Except.ok () →
      env.execShow = Except.error e →
      (setup_trino_catalog cfg env).2.connOpen = true ∧
      (setup_trino_catalog cfg env).2.cursorOpen = true) ∧
    (∀ e, env.connect = Except.error e →
      (setup_trino_catalog cfg env).2.connOpen = false ∧
      (setup_trino_catalog cfg env).2.cursorOpen = false) := by
  refine ⟨?_, ?_, ?_, ?_⟩
  · intro hc he rows hs
    simp [setup_trino_catalog, hc, he, hs]
  · intro e hc he
    simp [setup_trino_catalog, hc, he]
  · intro e hc he hs
    simp [setup_trino_catalog, hc, he, hs]
  · intro e hc
    simp [setup_trino_catalog, hc]

/-- Witness for C1 (amended): on a fully successful run both resources are
closed at return, and on a run whose DDL execution raises both are open. -/
theorem setup_trino_catalog_close_paths_witness :
    ((setup_trino_catalog defaultConfig
        { connect := Except.ok (), execCreate := Except.ok (),
          execShow := Except.ok ["information_schema"] }).2.connOpen = false ∧
     (setup_trino_catalog defaultConfig
        { connect := Except.ok (), execCreate := Except.ok (),
          execShow := Except.ok ["information_schema"] }).2.cursorOpen = false) ∧
    ((setup_trino_catalog defaultConfig
        { connect := Except.ok (), execCreate := Except.error "server gone",
          execShow := Except.ok [] }).2.connOpen = true ∧
     (setup_trino_catalog defaultConfig
        { connect := Except.ok (), execCreate := Except.error "server gone",
          execShow := Except.ok [] }).2.cursorOpen = true) := by
  constructor
  · exact (setup_trino_catalog_close_paths defaultConfig
      { connect := Except.ok (), execCreate := Except.ok (),
        execShow := Except.ok ["information_schema"] }).1 rfl rfl ["information_schema"] rfl
  · exact ((setup_trino_catalog_close_paths defaultConfig
      { connect := Except.ok (), execCreate := Except.error "server gone",
        execShow := Except.ok [] }).2.1 "server gone" rfl rfl)

/-- C4: for every combination of step outcomes — the prober may time out,
the registrar's DDL may fail either way — `main` runs the prober, the
registrar, and the instruction printer, in that order, and exits with
status 0; no failure of an individual step aborts the sequence or changes
the exit status. -/
theorem main_runs_all_steps_and_exits_zero (penv : Nat → GetOutcome)
    (tenv : TrinoEnv) (cfg : Config) :
    ∃ ready : Bool, main penv tenv cfg = Except.ok
      ([MainEvent.probed ready,
        MainEvent.registered (setup_trino_catalog cfg tenv).1,
        MainEvent.printedInstructions
          (print_instructions_output (setup_trino_catalog cfg tenv).1 cfg)], 0) := by
  rcases wait_for_minio_total penv with ⟨t, ht⟩
  exact ⟨t.result, by simp [main, ht]⟩

/-- C8: for every configuration and catalog name, the printed instruction
block contains the configured warehouse bucket name, the namespace, and the
table name verbatim. -/
theorem print_instructions_contains_config (catalog_name : String) (cfg : Config) :
    strContains (print_instructions_output catalog_name cfg) cfg.WAREHOUSE_BUCKET ∧
    strContains (print_instructions_output catalog_name cfg) cfg.NAMESPACE ∧
    strContains (print_instructions_output catalog_name cfg) cfg.TABLE_NAME := by
  refine ⟨⟨instrHeader,
            "/" ++ cfg.NAMESPACE ++ "/" ++ cfg.TABLE_NAME ++ instrAfterTarget catalog_name cfg,
            ?_⟩,
          ⟨instrHeader ++ cfg.WAREHOUSE_BUCKET ++ "/",
            "/" ++ cfg.TABLE_NAME ++ instrAfterTarget catalog_name cfg, ?_⟩,
          ⟨instrHeader ++ cfg.WAREHOUSE_BUCKET ++ "/" ++ cfg.NAMESPACE ++ "/",
            instrAfterTarget catalog_name cfg, ?_⟩⟩ <;>
    simp [print_instructions_output, String.append_assoc]

set_option maxRecDepth 100000 in
/-- C9: the manual fallback `CREATE CATALOG` statement in the printed
instructions is the very statement the registrar executes — same catalog
name, same property list, same interpolated configuration values — the two
texts differing only in layout whitespace and the terminating semicolon,
which `ddlNorm` erases. -/
theorem manual_ddl_matches_registrar_ddl (cfg : Config) :
    ddlNorm (manualCatalogDdl (catalogName cfg.WAREHOUSE_BUCKET) cfg) =
      ddlNorm (create_catalog_sql cfg) := by
  simp only [ddlNorm, manualCatalogDdl, create_catalog_sql, String.data_append,
    List.filter_append, List.append_assoc]
  rfl

end InitSetup
